import Mathlib

/-!
Verification of the dynamic multi-service OData client of `mcp_server.py`
against its natural-language specification.

The Python source is shallowly embedded: JSON documents become the inductive
`Json`; the mutable `SAPODataClient` object becomes the explicit record
`ClientState`; the network is an injected oracle (`World`), so every outcome
of an HTTP request — success body, HTTP status error, transport failure — is
a parameter the theorems quantify over.  Raised Python exceptions become
`Except PyExn` results.  Python truthiness (`if args.get("filter")`,
`if not self._metadata_cache`, `service or self.current_service`) is embedded
explicitly wherever the source relies on it.
-/

/-- JSON values, as produced by `json.loads`.  Object fields are kept in
insertion order; the modelled documents have distinct keys (as `json.loads`
yields for ordinary payloads). -/
inductive Json where
  | null : Json
  | bool (b : Bool) : Json
  | num (n : Int) : Json
  | str (s : String) : Json
  | arr (xs : List Json) : Json
  | obj (fields : List (String × Json)) : Json
deriving Repr

/-- Python exceptions raised by the client.  `HTTPError` handling raises a
message of the form `HTTP {code}: {detail}`; every other failure inside
`_make_request` is re-raised as `Request failed: ...`, so the two are
distinguishable by the caller (in the source: by message prefix; here: by
constructor). -/
inductive PyExn where
  | http (code : Nat) (detailIsParsedJson : Bool) (detail : String) : PyExn
  | requestFailed (msg : String) : PyExn
  | typeError (msg : String) : PyExn
  | keyError (k : String) : PyExn
deriving Repr, DecidableEq

/-- First value bound to key `k` (modelled dicts have distinct keys). -/
def lookupKey (fs : List (String × Json)) (k : String) : Option Json :=
  match fs with
  | [] => none
  | (k', v) :: rest => if k' = k then some v else lookupKey rest k

/-- Index of the first occurrence of `sep` in `xs` (leftmost match),
`none` when `sep` does not occur. -/
def findOcc (sep : List Char) : List Char → Option Nat
  | [] => if sep = [] then some 0 else none
  | c :: rest =>
    if sep.isPrefixOf (c :: rest) then some 0
    else (findOcc sep rest).map (· + 1)

/-- Python's `needle in haystack` for strings: substring containment. -/
def pyContainsSub (needle hay : List Char) : Bool :=
  (findOcc needle hay).isSome

/-- Python's `key in obj` for JSON values: key membership for dicts, element
membership for lists, substring test for strings; a `TypeError` otherwise
(`in` on `None`/numbers/booleans is not iterable). -/
def pyIn (k : String) (j : Json) : Except PyExn Bool :=
  match j with
  | .obj fs => .ok (lookupKey fs k).isSome
  | .arr xs => .ok (xs.any fun x => match x with | .str s => s == k | _ => false)
  | .str s => .ok (pyContainsSub k.data s.data)
  | _ => .error (.typeError "argument of type is not iterable")

/-- Python's `obj[key]` on JSON values: dict lookup (raising `KeyError` when
missing) and a `TypeError` on any non-dict. -/
def pyIndex (j : Json) (k : String) : Except PyExn Json :=
  match j with
  | .obj fs =>
    match lookupKey fs k with
    | some v => .ok v
    | none => .error (.keyError k)
  | .str _ => .error (.typeError "string indices must be integers")
  | .arr _ => .error (.typeError "list indices must be integers")
  | _ => .error (.typeError "object is not subscriptable")

/-- Python's `dict.get(key, default)` and an `AttributeError` (modelled as a
type error) on non-dicts. -/
def pyGet (j : Json) (k : String) (dflt : Json) : Except PyExn Json :=
  match j with
  | .obj fs => .ok ((lookupKey fs k).getD dflt)
  | _ => .error (.typeError "object has no attribute get")

/-- Python's `for x in obj`: elements of a list, keys of a dict, one-character
strings of a string; `TypeError` otherwise. -/
def pyIterate (j : Json) : Except PyExn (List Json) :=
  match j with
  | .arr xs => .ok xs
  | .obj fs => .ok (fs.map fun p => Json.str p.1)
  | .str s => .ok (s.data.map fun c => Json.str (String.mk [c]))
  | _ => .error (.typeError "object is not iterable")

/-- Python truthiness of a JSON value (`bool(x)`). -/
def jsonTruthy : Json → Bool
  | .null => false
  | .bool b => b
  | .num n => n != 0
  | .str s => s != ""
  | .arr xs => !xs.isEmpty
  | .obj fs => !fs.isEmpty

/-- Python's `a or b` on optional strings (`None` and `""` are falsy). -/
def pyOrStr (a b : Option String) : Option String :=
  match a with
  | some s => if s = "" then b else some s
  | none => b

/-- Truthiness of an optional string. -/
def optStrTruthy : Option String → Bool
  | some s => s != ""
  | none => false

/-- One outbound HTTP request, as assembled by `_make_request`: effective
service segment, endpoint, query parameters, upper-cased method, and the
body (attached only for POST/PUT/PATCH with truthy data).  Headers
(Accept/auth/CSRF) carry no information the modelled behaviour depends on
and are omitted. -/
structure Request where
  service : Option String
  endpoint : String
  params : List (String × String)
  method : String
  body : Option Json
deriving Repr

/-- The three ways the HTTP layer can answer, before the client normalises
them: a response body (status < 400), an HTTP status error with its body, or
a transport-level failure (URLError, DNS, timeout...). -/
inductive HttpOutcome where
  | success (body : String) : HttpOutcome
  | httpError (code : Nat) (body : String) : HttpOutcome
  | failure (msg : String) : HttpOutcome
deriving Repr

/-- The injected outside world: the network's answer to each request, and
`json.loads` as a partial parse function (`none` = `JSONDecodeError`). -/
structure World where
  net : Request → HttpOutcome
  parse : String → Option Json

/-- Embeds the `except urllib.error.HTTPError` branch of `_make_request`
(lines 81-87).  The source attempts `json.loads(error_data)` and, on
success, raises `HTTP {code}: {error_json}` — but that `raise` sits inside
the same `try` whose bare `except:` follows it, so the freshly raised
exception is caught and superseded by `HTTP {code}: {error_data}` with the
raw text.  Both branches of the parse therefore surface the raw body; the
parsed detail is always discarded. -/
def httpErrorBranch (parse : String → Option Json) (code : Nat) (body : String) : PyExn :=
  match parse body with
  | some _ => .http code false body
  | none => .http code false body

/-- The synthetic success document `_make_request` returns for an empty
response body. -/
def emptyBodyDoc (method : String) : Json :=
  Json.obj [("status", Json.str "success"),
            ("message", Json.str (method ++ " operation completed"))]

/-- Python's `str.upper()` (ASCII range, which covers the modelled method
strings). -/
def pyCharUpper (c : Char) : Char :=
  if 'a' ≤ c ∧ c ≤ 'z' then Char.ofNat (c.toNat - 32) else c

def pyUpper (s : String) : String :=
  String.mk (s.data.map pyCharUpper)

def isPyWs (c : Char) : Bool :=
  c = ' ' ∨ c = '\t' ∨ c = '\n' ∨ c = '\r'

/-- Python's `str.strip()` (ASCII whitespace suffices for the model). -/
def pyStrip (s : String) : String :=
  String.mk (((s.data.dropWhile isPyWs).reverse.dropWhile isPyWs).reverse)

/-- Embeds `SAPODataClient._make_request` (lines 39-89).  `current` is the session's
`self.current_service`; the effective target service is
`service or self.current_service` (Python truthiness).  Successful responses
with a non-empty body are `json.loads`-parsed (a decode failure is caught by
the generic handler and re-raised as `Request failed`); an empty body yields
the synthetic success document; HTTP errors go through `httpErrorBranch`;
transport failures are re-raised as `Request failed`. -/
def mkRequest (current : Option String) (endpoint : String)
    (params : List (String × String)) (method : String) (data : Option Json)
    (service : Option String) : Request :=
  { service := pyOrStr service current
    endpoint := endpoint
    params := params
    method := pyUpper method
    body := if data.isSome && (pyUpper method ∈ ["POST", "PUT", "PATCH"]) then data else none }

def _make_request (w : World) (current : Option String) (endpoint : String)
    (params : List (String × String)) (method : String) (data : Option Json)
    (service : Option String) : Except PyExn Json :=
  match w.net (mkRequest current endpoint params method data service) with
  | .success body =>
    if pyStrip body ≠ "" then
      match w.parse body with
      | some j => .ok j
      | none => .error (.requestFailed "JSONDecodeError")
    else
      .ok (emptyBodyDoc method)
  | .httpError code body => .error (httpErrorBranch w.parse code body)
  | .failure msg => .error (.requestFailed msg)

/-- A discovered service, `{name, description, version}`.  The catalog fields
are strings in every modelled scenario (the source would store the raw JSON
value; non-string catalog fields are outside the modelled scope and coerced
via `jsonToStr`). -/
structure ServiceDescriptor where
  name : String
  description : String
  version : String
deriving Repr, DecidableEq

def jsonToStr : Json → String
  | .str s => s
  | .num n => toString n
  | .bool true => "True"
  | .bool false => "False"
  | .null => "None"
  | .arr _ => "<list>"
  | .obj _ => "<dict>"

/-- The mutable state of `SAPODataClient`: base URL, active service, the two
document caches and the discovered-service list.  Credentials only feed the
Authorization header and are omitted. -/
structure ClientState where
  base_url : String
  current_service : Option String
  metadata_cache : Json
  service_doc_cache : List (String × Json)
  available_services : List ServiceDescriptor
deriving Repr

/-- Embeds `SAPODataClient.get_service_document` (lines 107-113): fetch-or-cached,
keyed by `service or self.current_service or 'default'`.  The third result
component counts network requests issued (0 on a cache hit, 1 on a miss);
the cache is populated only when the request succeeds (a raised exception
skips the dict assignment). -/
def serviceDocKey (st : ClientState) (service : Option String) : String :=
  (pyOrStr (pyOrStr service st.current_service) (some "default")).getD "default"

def get_service_document (w : World) (st : ClientState) (service : Option String) :
    Except PyExn Json × ClientState × Nat :=
  let target := serviceDocKey st service
  match lookupKey st.service_doc_cache target with
  | some doc => (.ok doc, st, 0)
  | none =>
    match _make_request w st.current_service "" [] "GET" none service with
    | .ok doc =>
      (.ok doc, { st with service_doc_cache := (target, doc) :: st.service_doc_cache }, 1)
    | .error e => (.error e, st, 1)

/-- Embeds `SAPODataClient.get_metadata` (lines 115-125): process-wide cache with
Python-truthiness hit test (`if not self._metadata_cache or force_refresh`),
`$metadata?$format=json` first, service-document fallback on any failure.
The `Nat` counts network requests. -/
def get_metadata (w : World) (st : ClientState) (force_refresh : Bool) :
    Except PyExn Json × ClientState × Nat :=
  if !jsonTruthy st.metadata_cache || force_refresh then
    match _make_request w st.current_service "$metadata" [("$format", "json")] "GET" none none with
    | .ok m => (.ok m, { st with metadata_cache := m }, 1)
    | .error _ =>
      match get_service_document w st none with
      | (.ok d, st', n) => (.ok d, { st' with metadata_cache := d }, 1 + n)
      | (.error e, st', n) => (.error e, st', 1 + n)
  else
    (.ok st.metadata_cache, st, 0)

/-- The shape-extraction core of `SAPODataClient.discover_entity_sets`
(lines 130-140), applied to an already-fetched service document: try the
nested `d.EntitySets` shape, then the flat `value` shape (collecting the
`name` field of those items that have one), then the flat `EntitySets`
shape; otherwise the empty list.  `pyIn`/`pyIndex` raise exactly where
Python's `in` / subscription would (e.g. on a non-container document). -/
def extractNames : List Json → Except PyExn (List Json)
  | [] => .ok []
  | item :: rest => do
    let keep ← pyIn "name" item
    if keep then
      let v ← pyIndex item "name"
      let tail ← extractNames rest
      .ok (v :: tail)
    else
      extractNames rest

def discover_entity_sets_extract (service_doc : Json) : Except PyExn Json := do
  let hasD ← pyIn "d" service_doc
  let nested ← if hasD then do
      let dv ← pyIndex service_doc "d"
      pyIn "EntitySets" dv
    else pure false
  if nested then do
    let dv ← pyIndex service_doc "d"
    pyIndex dv "EntitySets"
  else
    let hasValue ← pyIn "value" service_doc
    if hasValue then do
      let v ← pyIndex service_doc "value"
      let items ← pyIterate v
      let names ← extractNames items
      .ok (Json.arr names)
    else
      let hasFlat ← pyIn "EntitySets" service_doc
      if hasFlat then pyIndex service_doc "EntitySets"
      else .ok (Json.arr [])

/-- Embeds `SAPODataClient.discover_entity_sets` (lines 127-140): fetch (or reuse
cached) service document, then extract. -/
def discover_entity_sets (w : World) (st : ClientState) (service : Option String) :
    Except PyExn Json × ClientState :=
  match get_service_document w st service with
  | (.ok doc, st', _) => (discover_entity_sets_extract doc, st')
  | (.error e, st', _) => (.error e, st')

/-- Splits `xs` at every non-overlapping leftmost occurrence of `sep`,
Python's `str.split(sep)` for a non-empty separator. -/
def splitOnAux (sep : List Char) (xs : List Char) (acc : List Char) : List (List Char) :=
  match xs with
  | [] => [acc.reverse]
  | c :: rest =>
    if sep.isPrefixOf (c :: rest) then
      acc.reverse :: splitOnAux sep (List.drop (sep.length - 1) rest) []
    else
      splitOnAux sep rest (c :: acc)
termination_by xs.length
decreasing_by
  · simp only [List.length_drop, List.length_cons]
    omega
  · simp only [List.length_cons]
    omega

def splitOnL (sep xs : List Char) : List (List Char) :=
  splitOnAux sep xs []

/-- Python's `s.replace(old, new)` for a non-empty `old`: split and rejoin. -/
def pyReplace (s old new : String) : String :=
  String.intercalate new ((splitOnL old.data s.data).map String.mk)

/-- The hard-coded candidate list of `discover_all_services` (lines 200-204). -/
def common_services : List String :=
  ["API_CUSTOMER_SRV", "API_BILLING_DOCUMENT_SRV", "API_SALES_ORDER_SRV",
   "API_MATERIAL_SRV", "API_SUPPLIER_SRV", "API_FINANCIALSTATEMENT_SRV",
   "API_PURCHASE_ORDER_SRV", "API_BUSINESS_PARTNER_SRV"]

/-- The descriptor synthesized for a reachable fallback candidate
(lines 211-215): version "1" and a description derived by stripping the
`API_` / `_SRV` tokens from the name. -/
def fallbackDescriptor (name : String) : ServiceDescriptor :=
  { name := name
    description := "SAP " ++ pyReplace (pyReplace name "API_" "") "_SRV" "" ++ " Service"
    version := "1" }

/-- Catalog-path descriptor extraction (lines 180-193): first-available field
among synonyms, version defaulting to "1".  Non-dict items raise (Python
`AttributeError` on `.get`), which sends `discover_all_services` to its
fallback. -/
def mkDescriptor (item : Json) : Except PyExn ServiceDescriptor := do
  let nameDflt ← pyGet item "ServiceId" (Json.str "Unknown")
  let name ← pyGet item "TechnicalServiceName" nameDflt
  let descDflt ← pyGet item "Title" (Json.str "")
  let desc ← pyGet item "ServiceDescription" descDflt
  let version ← pyGet item "ServiceVersion" (Json.str "1")
  .ok { name := jsonToStr name, description := jsonToStr desc, version := jsonToStr version }

def mkDescriptors : List Json → Except PyExn (List ServiceDescriptor)
  | [] => .ok []
  | item :: rest => do
    let d ← mkDescriptor item
    let tail ← mkDescriptors rest
    .ok (d :: tail)

def parseCatalog (catalog_data : Json) : Except PyExn (List ServiceDescriptor) := do
  let hasD ← pyIn "d" catalog_data
  let nested ← if hasD then do
      let dv ← pyIndex catalog_data "d"
      pyIn "results" dv
    else pure false
  if nested then do
    let dv ← pyIndex catalog_data "d"
    let results ← pyIndex dv "results"
    let items ← pyIterate results
    mkDescriptors items
  else
    let hasValue ← pyIn "value" catalog_data
    if hasValue then do
      let v ← pyIndex catalog_data "value"
      let items ← pyIterate v
      mkDescriptors items
    else
      .ok []

def catalogEndpoint : String := "/IWFND/CATALOGSERVICE;v=2/ServiceCollection"

/-- Embeds `SAPODataClient.discover_all_services` (lines 172-220): try the gateway
catalog (any exception — request failure or parse failure — falls back to
probing the fixed candidate list with zero-param requests, silently skipping
candidates whose probe raises).  Either path overwrites
`self._available_services` wholesale with the result. -/
def discover_all_services (w : World) (st : ClientState) :
    List ServiceDescriptor × ClientState :=
  let attempt : Except PyExn (List ServiceDescriptor) := do
    let catalog_data ← _make_request w st.current_service catalogEndpoint [] "GET" none none
    parseCatalog catalog_data
  match attempt with
  | .ok services => (services, { st with available_services := services })
  | .error _ =>
    let names := common_services.filter fun name =>
      (_make_request w st.current_service "" [] "GET" none (some name)).isOk
    let descs := names.map fallbackDescriptor
    (descs, { st with available_services := descs })

/-- The value the fallback path of `discover_all_services` computes: the
candidates whose zero-param probe succeeds, synthesized into descriptors. -/
def fallbackList (w : World) (st : ClientState) : List ServiceDescriptor :=
  (common_services.filter fun name =>
    (_make_request w st.current_service "" [] "GET" none (some name)).isOk).map
    fallbackDescriptor

/-- Embeds `SAPODataClient.switch_service` (lines 248-256): probe via
`get_service_document(service_name)`; mutate `current_service` only on
success, return `False` (and leave the session untouched) on any failure. -/
def switch_service (w : World) (st : ClientState) (service_name : String) :
    Bool × ClientState :=
  match get_service_document w st (some service_name) with
  | (.ok _, st', _) => (true, { st' with current_service := some service_name })
  | (.error _, st', _) => (false, st')

/-- The service-list scan of `find_service_for_entity` (lines 237-244):
each iteration discovers the service's entity sets and tests membership,
`continue`-ing on any exception. -/
def findLoop (w : World) (entity_name : String) :
    List ServiceDescriptor → ClientState → Option String × ClientState
  | [], st => (none, st)
  | d :: rest, st =>
    match discover_entity_sets w st (some d.name) with
    | (.ok entities, st') =>
      match pyIn entity_name entities with
      | .ok true => (some d.name, st')
      | _ => findLoop w entity_name rest st'
    | (.error _, st') => findLoop w entity_name rest st'

/-- The current-service shortcut of `find_service_for_entity`
(lines 224-231): when an active service is set, discover its entity sets and
test membership, swallowing any exception (`except: pass`). -/
def findFirstPhase (w : World) (st : ClientState) (entity_name : String) :
    Option String × ClientState :=
  match st.current_service with
  | some cs =>
    if cs ≠ "" then
      match discover_entity_sets w st (some cs) with
      | (.ok entities, st') =>
        match pyIn entity_name entities with
        | .ok true => (some cs, st')
        | _ => (none, st')
      | (.error _, st') => (none, st')
    else (none, st)
  | none => (none, st)

/-- The scan of `find_service_for_entity` (lines 233-246): populate the
service list if empty, then scan it. -/
def findScanPhase (w : World) (entity_name : String) (st : ClientState) :
    Option String × ClientState :=
  let st1 := if st.available_services.isEmpty then (discover_all_services w st).2 else st
  findLoop w entity_name st1.available_services st1

/-- Embeds `SAPODataClient.find_service_for_entity` (lines 222-246). -/
def find_service_for_entity (w : World) (st : ClientState) (entity_name : String) :
    Option String × ClientState :=
  match findFirstPhase w st entity_name with
  | (some s, st') => (some s, st')
  | (none, st') => findScanPhase w entity_name st' 

/-- The arguments of the `sap_query` tool: the entity set plus the eight
optional query facets of the input schema (lines 284-301).  `none` models an
absent key in the JSON-RPC `arguments` dict. -/
structure QueryArgs where
  entity_set : String
  filter : Option String := none
  select : Option String := none
  expand : Option String := none
  orderby : Option String := none
  top : Option Int := none
  skip : Option Int := none
  countFlag : Option Bool := none
  format : Option String := none

/-- Truthiness of the optional numeric paging fields (`0` is falsy). -/
def optIntTruthy : Option Int → Bool
  | some n => n != 0
  | none => false

/-- The parameter-set construction of `sap_query_tool` (lines 587-604): each
facet is emitted under its protocol-reserved name only when its value is
present and truthy (`if args.get(...)`), numeric paging fields are coerced
with `str(...)` and a truthy `count` becomes the literal `"true"`.  The list
order is the source's dict insertion order. -/
def buildQueryParams (args : QueryArgs) : List (String × String) :=
  (if optStrTruthy args.filter then [("$filter", args.filter.getD "")] else []) ++
  ((if optStrTruthy args.select then [("$select", args.select.getD "")] else []) ++
  ((if optStrTruthy args.expand then [("$expand", args.expand.getD "")] else []) ++
  ((if optStrTruthy args.orderby then [("$orderby", args.orderby.getD "")] else []) ++
  ((if optIntTruthy args.top then [("$top", toString (args.top.getD 0))] else []) ++
  ((if optIntTruthy args.skip then [("$skip", toString (args.skip.getD 0))] else []) ++
  ((if args.countFlag = some true then [("$count", "true")] else []) ++
  (if optStrTruthy args.format then [("$format", args.format.getD "")] else [])))))))

/-- Embeds `sap_query_tool` (lines 583-610): build the parameter set and issue the
request against the current service.  The emoji text formatting of
`_format_query_result` carries no state and is not modelled; the raw
response document stands for the result. -/
def sap_query_tool (w : World) (st : ClientState) (args : QueryArgs) : Except PyExn Json :=
  _make_request w st.current_service args.entity_set (buildQueryParams args) "GET" none none

/-- One entry of the `sap_batch` operations array (lines 346-365). -/
structure BatchOp where
  method : Option String := none
  url : Option String := none
  data : Option Json := none

/-- One per-operation outcome of `sap_batch_tool`, with its 1-based
`operation` index and `status` string. -/
structure BatchEntry where
  operation : Nat
  status : String
  result : Option Json
  errorMsg : Option PyExn

/-- The body of one `sap_batch_tool` loop iteration (lines 662-680), for the
0-based index `i`: defaults (`method="GET"`, `url=""`), `json.dumps` of a
truthy data object as the body, and independent success/error capture. -/
def batchRequest (w : World) (st : ClientState) (op : BatchOp) : Except PyExn Json :=
  let data := match op.data with
    | some d => if jsonTruthy d then some d else none
    | none => none
  _make_request w st.current_service (op.url.getD "") [] (op.method.getD "GET") data none

def runBatchOp (w : World) (st : ClientState) (i : Nat) (op : BatchOp) : BatchEntry :=
  match batchRequest w st op with
  | .ok r => { operation := i + 1, status := "success", result := some r, errorMsg := none }
  | .error e => { operation := i + 1, status := "error", result := none, errorMsg := some e }

def batchLoop (w : World) (st : ClientState) (i : Nat) : List BatchOp → List BatchEntry
  | [] => []
  | op :: rest => runBatchOp w st i op :: batchLoop w st (i + 1) rest

/-- Embeds `sap_batch_tool` (lines 657-682): execute the operations sequentially,
collecting one outcome per operation. -/
def sap_batch_tool (w : World) (st : ClientState) (ops : List BatchOp) : List BatchEntry :=
  batchLoop w st 0 ops

/-- The observable outcome of `sap_smart_query_tool`: entity found and inner
query succeeded, entity not found anywhere (with the size of the available
list, as reported), or the inner query raised (the exception propagates to
the tool dispatcher after the `finally` block ran). -/
inductive SmartOutcome where
  | found (service : String) (result : Json) : SmartOutcome
  | notFound (availableCount : Nat) : SmartOutcome
  | raised (e : PyExn) : SmartOutcome

/-- Embeds `sap_smart_query_tool` (lines 865-892): resolve the owning service
(retrying once after a discovery pass), save `current_service`, switch to
the owning service, run the query, and — in the `finally` block — switch
back **only when the saved value is truthy** (`if current_service:`).  The
restoring `switch_service` is itself a probe that silently leaves the
session on the discovered service when it fails. -/
def sap_smart_query_tool (w : World) (st : ClientState) (args : QueryArgs) :
    SmartOutcome × ClientState :=
  let (opt1, st1) := find_service_for_entity w st args.entity_set
  let (optimal, st2) :=
    match opt1 with
    | some s => (some s, st1)
    | none =>
      let (_, st') := discover_all_services w st1
      find_service_for_entity w st' args.entity_set
  match optimal with
  | some opt =>
    let saved := st2.current_service
    let (_, st3) := switch_service w st2 opt
    let result := sap_query_tool w st3 args
    let st4 :=
      if optStrTruthy saved then (switch_service w st3 (saved.getD "")).2 else st3
    (match result with
     | .ok r => SmartOutcome.found opt r
     | .error e => SmartOutcome.raised e, st4)
  | none => (SmartOutcome.notFound st2.available_services.length, st2)

/-- Characters trailing-stripped by `rstrip('/')`. -/
def rstripSlash (xs : List Char) : List Char :=
  (xs.reverse.dropWhile (· = '/')).reverse

def countChar (c : Char) (xs : List Char) : Nat :=
  (xs.filter (· = c)).length

def sapMarker : String := "/sap/opu/odata/sap/"

/-- Embeds `SAPODataClient.__init__` (lines 21-37): a URL containing the
`/sap/opu/odata/sap/` marker with more than 5 slashes is split on the
marker — the part before the first occurrence (plus the marker without its
trailing slash) becomes the base URL and the part between the first and
second occurrence becomes the initial active service; any other URL is
trailing-slash-stripped with no active service.  Caches start empty
(`_metadata_cache = {}` is the falsy empty dict). -/
def SAPODataClient_init (base_url : String) : ClientState :=
  if pyContainsSub sapMarker.data base_url.data ∧ 5 < countChar '/' base_url.data then
    let parts := (splitOnL sapMarker.data base_url.data).map String.mk
    { base_url := parts.headD "" ++ "/sap/opu/odata/sap"
      current_service := if 1 < parts.length then some ((parts.drop 1).headD "") else none
      metadata_cache := Json.obj []
      service_doc_cache := []
      available_services := [] }
  else
    { base_url := String.mk (rstripSlash base_url.data)
      current_service := none
      metadata_cache := Json.obj []
      service_doc_cache := []
      available_services := [] }

/-! Concrete worlds and session states used by the witnesses and
counterexamples below. -/

/-- A service document listing the entity sets `Orders`. -/
def demoDoc : Json :=
  Json.obj [("d", Json.obj [("EntitySets", Json.arr [Json.str "Orders"])])]

def demoDesc : ServiceDescriptor := { name := "S1", description := "", version := "1" }

/-- A network where every request fails at transport level. -/
def wDead : World := { net := fun _ => .failure "connection refused", parse := fun _ => none }

/-- A session with no active service whose cache and service list already
know `S1` (so entity resolution needs no network). -/
def stNoCurrent : ClientState :=
  { base_url := "http://h/sap/opu/odata/sap"
    current_service := none
    metadata_cache := Json.obj []
    service_doc_cache := [("S1", demoDoc)]
    available_services := [demoDesc] }

/-- Like `stNoCurrent` but with active service `S0`, whose document is also
cached. -/
def stPrior : ClientState :=
  { base_url := "http://h/sap/opu/odata/sap"
    current_service := some "S0"
    metadata_cache := Json.obj []
    service_doc_cache := [("S0", Json.obj [("x", Json.num 1)]), ("S1", demoDoc)]
    available_services := [demoDesc] }

/-- A fresh session against a server whose `$metadata` endpoint answers with
the empty JSON object. -/
def wEmptyMeta : World :=
  { net := fun r => if r.endpoint = "$metadata" then .success "e" else .failure "down"
    parse := fun s => if s = "e" then some (Json.obj []) else none }

def stFresh : ClientState :=
  { base_url := "http://h/sap/opu/odata/sap"
    current_service := none
    metadata_cache := Json.obj []
    service_doc_cache := []
    available_services := [] }

/-- A network whose catalog endpoint is down but where two of the well-known
candidate services answer the zero-param probe (with an empty body). -/
def wProbe : World :=
  { net := fun r =>
      if r.service = some "API_SALES_ORDER_SRV" ∨ r.service = some "API_MATERIAL_SRV" then
        .success ""
      else
        .failure "not found"
    parse := fun _ => none }

/-- A network for the batch demo: the endpoint `bad` yields HTTP 500, any
other request succeeds with an empty body. -/
def wBatch : World :=
  { net := fun r => if r.endpoint = "bad" then .httpError 500 "oops" else .success ""
    parse := fun _ => none }

/-- A parse function recognising the (brace-free) JSON body `[1]`. -/
def demoParse : String → Option Json :=
  fun s => if s = "[1]" then some (Json.arr [Json.num 1]) else none

/-- A session whose metadata cache holds a (truthy) document. -/
def stMeta : ClientState :=
  { base_url := "http://h/sap/opu/odata/sap"
    current_service := none
    metadata_cache := Json.arr [Json.num 1]
    service_doc_cache := []
    available_services := [] }

/-- A network whose `$metadata` endpoint answers with the parseable
non-empty document `[1]`. -/
def wGoodMeta : World :=
  { net := fun r => if r.endpoint = "$metadata" then .success "[1]" else .failure "down"
    parse := demoParse }

/-! Helper lemmas. -/


/-- The three-operation batch of the witness: the middle operation targets
the failing endpoint of `wBatch`. -/
def opsDemo : List BatchOp :=
  [{ url := some "a" }, { url := some "bad" }, { url := some "c" }]

theorem gsd_eq_hit (w : World) (st : ClientState) (service : Option String) (doc : Json)
    (hl : lookupKey st.service_doc_cache (serviceDocKey st service) = some doc) :
    get_service_document w st service = (.ok doc, st, 0) := by
  unfold get_service_document
  simp only [hl]

theorem gsd_eq_miss_ok (w : World) (st : ClientState) (service : Option String) (doc : Json)
    (hl : lookupKey st.service_doc_cache (serviceDocKey st service) = none)
    (hm : _make_request w st.current_service "" [] "GET" none service = .ok doc) :
    get_service_document w st service =
      (.ok doc,
       { st with service_doc_cache := (serviceDocKey st service, doc) :: st.service_doc_cache },
       1) := by
  unfold get_service_document
  simp only [hl, hm]

theorem gsd_eq_miss_err (w : World) (st : ClientState) (service : Option String) (e : PyExn)
    (hl : lookupKey st.service_doc_cache (serviceDocKey st service) = none)
    (hm : _make_request w st.current_service "" [] "GET" none service = .error e) :
    get_service_document w st service = (.error e, st, 1) := by
  unfold get_service_document
  simp only [hl, hm]

theorem gsd_error_state (w : World) (st : ClientState) (service : Option String)
    (e : PyExn) (st' : ClientState) (n : Nat)
    (h : get_service_document w st service = (.error e, st', n)) : st' = st ∧ n = 1 := by
  rcases hl : lookupKey st.service_doc_cache (serviceDocKey st service) with _ | doc
  · rcases hm : _make_request w st.current_service "" [] "GET" none service with e' | doc'
    · rw [gsd_eq_miss_err w st service e' hl hm] at h
      simp only [Prod.mk.injEq] at h
      exact ⟨h.2.1.symm, h.2.2.symm⟩
    · rw [gsd_eq_miss_ok w st service doc' hl hm] at h
      simp at h
  · rw [gsd_eq_hit w st service doc hl] at h
    simp at h

theorem gsd_current (w : World) (st : ClientState) (service : Option String) :
    (get_service_document w st service).2.1.current_service = st.current_service := by
  rcases hl : lookupKey st.service_doc_cache (serviceDocKey st service) with _ | doc
  · rcases hm : _make_request w st.current_service "" [] "GET" none service with e' | doc'
    · rw [gsd_eq_miss_err w st service e' hl hm]
    · rw [gsd_eq_miss_ok w st service doc' hl hm]
  · rw [gsd_eq_hit w st service doc hl]

theorem gsd_cache_mono (w : World) (st : ClientState) (service : Option String)
    (k : String) (d : Json) (h : lookupKey st.service_doc_cache k = some d) :
    lookupKey (get_service_document w st service).2.1.service_doc_cache k = some d := by
  rcases hl : lookupKey st.service_doc_cache (serviceDocKey st service) with _ | doc
  · rcases hm : _make_request w st.current_service "" [] "GET" none service with e' | doc'
    · rw [gsd_eq_miss_err w st service e' hl hm]
      exact h
    · rw [gsd_eq_miss_ok w st service doc' hl hm]
      show lookupKey ((serviceDocKey st service, doc') :: st.service_doc_cache) k = some d
      by_cases hk : serviceDocKey st service = k
      · subst hk
        rw [hl] at h
        exact absurd h (by simp)
      · simpa [lookupKey, hk] using h
  · rw [gsd_eq_hit w st service doc hl]
    exact h

/-- C3: for every service name whose reachability probe — the
`get_service_document` call for that name — fails, `switch_service` returns
`False` and leaves the session (in particular its active-service field)
unchanged; only when the probe succeeds does it mutate `current_service` to
the given name and return `True`. -/
theorem c3_switch_service_probe (w : World) (st : ClientState) (name : String) :
    ((get_service_document w st (some name)).1.isOk = false →
      switch_service w st name = (false, st)) ∧
    (∀ doc st' n, get_service_document w st (some name) = (.ok doc, st', n) →
      switch_service w st name = (true, { st' with current_service := some name })) := by
  constructor
  · intro h
    unfold switch_service
    rcases hg : get_service_document w st (some name) with ⟨r, st', n⟩
    rcases r with e | doc
    · obtain ⟨h1, _⟩ := gsd_error_state w st (some name) e st' n hg
      subst h1
      rfl
    · rw [hg] at h
      simp [Except.isOk, Except.toBool] at h
  · intro doc st' n hg
    unfold switch_service
    rw [hg]

/-- C3 witness: a failing probe (dead network, empty cache) leaves the
session untouched and returns `False`; a succeeding probe (cached document
for `S1`) mutates the active service to `S1` and returns `True`. -/
theorem c3_witness :
    switch_service wDead stFresh "S2" = (false, stFresh) ∧
    switch_service wDead stNoCurrent "S1" =
      (true, { stNoCurrent with current_service := some "S1" }) := by
  constructor
  · exact (c3_switch_service_probe wDead stFresh "S2").1 (by rfl)
  · exact (c3_switch_service_probe wDead stNoCurrent "S1").2 demoDoc stNoCurrent 0 (by rfl)

/-- C7 (code bug): the claim — shared with §4.1 of the spec — says an HTTP
status ≥ 400 raises an error whose detail is the body parsed as structured
JSON when it parses, and the raw text otherwise.  The source's inner `raise`
with the parsed detail is caught by its own bare `except:`, so for EVERY
parse function, body and status the raised error carries the raw body text
(`detailIsParsedJson = false`) — also when the body parses as JSON, as the
concrete `demoParse`/`[1]` instance shows.  The HTTP status is carried, and
the error is a distinct constructor from the transport/timeout error
(`PyExn.requestFailed`). -/
theorem c7_http_error_raw_detail :
    (∀ (parse : String → Option Json) (code : Nat) (body : String),
       httpErrorBranch parse code body = PyExn.http code false body) ∧
    demoParse "[1]" = some (Json.arr [Json.num 1]) ∧
    httpErrorBranch demoParse 400 "[1]" = PyExn.http 400 false "[1]" ∧
    _make_request { net := fun _ => .httpError 400 "[1]", parse := demoParse }
        none "Products" [] "GET" none none = .error (PyExn.http 400 false "[1]") := by
  refine ⟨fun parse code body => ?_, rfl, rfl, rfl⟩
  unfold httpErrorBranch
  cases parse body <;> rfl

theorem batchLoop_length (w : World) (st : ClientState) :
    ∀ (ops : List BatchOp) (j : Nat), (batchLoop w st j ops).length = ops.length
  | [], _ => rfl
  | _ :: rest, j => by
    simp [batchLoop, batchLoop_length w st rest (j + 1)]

theorem batchLoop_get (w : World) (st : ClientState) :
    ∀ (ops : List BatchOp) (j i : Nat),
      (batchLoop w st j ops)[i]? = (ops[i]?).map (runBatchOp w st (j + i))
  | [], _, _ => by simp [batchLoop]
  | op :: rest, j, 0 => by simp [batchLoop]
  | op :: rest, j, i + 1 => by
    have harith : j + 1 + i = j + (i + 1) := by omega
    simp only [batchLoop, List.getElem?_cons_succ]
    rw [batchLoop_get w st rest (j + 1) i, harith]

/-- C4: `sap_batch_tool` executes the operations sequentially and
independently — the result has exactly one entry per operation, entry `i`
is a function of operation `i` alone (a failure elsewhere cannot affect it),
its `operation` index is the 1-based `i + 1`, and it reports
`status = "success"` with its own result exactly when its request succeeds
and `status = "error"` when it raises. -/
theorem c4_batch_isolation (w : World) (st : ClientState) (ops : List BatchOp) :
    (sap_batch_tool w st ops).length = ops.length ∧
    (∀ i : Nat, (sap_batch_tool w st ops)[i]? = (ops[i]?).map (runBatchOp w st i)) ∧
    (∀ (i : Nat) (op : BatchOp), ops[i]? = some op →
      ∃ e, (sap_batch_tool w st ops)[i]? = some e ∧ e.operation = i + 1 ∧
        (∀ r, batchRequest w st op = .ok r →
          e.status = "success" ∧ e.result = some r ∧ e.errorMsg = none) ∧
        (∀ err, batchRequest w st op = .error err →
          e.status = "error" ∧ e.result = none ∧ e.errorMsg = some err)) := by
  refine ⟨batchLoop_length w st ops 0, fun i => ?_, fun i op hop => ?_⟩
  · simpa using batchLoop_get w st ops 0 i
  · refine ⟨runBatchOp w st i op, ?_, ?_, ?_, ?_⟩
    · have hg := batchLoop_get w st ops 0 i
      simp only [Nat.zero_add] at hg
      show (batchLoop w st 0 ops)[i]? = _
      rw [hg, hop]
      rfl
    · unfold runBatchOp
      cases batchRequest w st op <;> rfl
    · intro r hr
      unfold runBatchOp
      rw [hr]
      exact ⟨rfl, rfl, rfl⟩
    · intro err herr
      unfold runBatchOp
      rw [herr]
      exact ⟨rfl, rfl, rfl⟩

/-- C4 witness: a batch of 3 with the middle operation failing yields 3
entries, 1-based indices, `error` in the middle and `success` (with their
own results) on both neighbours. -/
theorem c4_witness :
    (sap_batch_tool wBatch stFresh opsDemo).length = 3 ∧
    (∃ e, (sap_batch_tool wBatch stFresh opsDemo)[0]? = some e ∧
      e.operation = 1 ∧ e.status = "success" ∧ e.result = some (emptyBodyDoc "GET")) ∧
    (∃ e, (sap_batch_tool wBatch stFresh opsDemo)[1]? = some e ∧
      e.operation = 2 ∧ e.status = "error" ∧ e.errorMsg = some (PyExn.http 500 false "oops")) ∧
    (∃ e, (sap_batch_tool wBatch stFresh opsDemo)[2]? = some e ∧
      e.operation = 3 ∧ e.status = "success" ∧ e.result = some (emptyBodyDoc "GET")) := by
  obtain ⟨hlen, _, hper⟩ := c4_batch_isolation wBatch stFresh opsDemo
  refine ⟨hlen, ?_, ?_, ?_⟩
  · obtain ⟨e, he, hop, hok, _⟩ := hper 0 { url := some "a" } (by rfl)
    obtain ⟨hs, hr, _⟩ := hok (emptyBodyDoc "GET") (by rfl)
    exact ⟨e, he, hop, hs, hr⟩
  · obtain ⟨e, he, hop, _, herr⟩ := hper 1 { url := some "bad" } (by rfl)
    obtain ⟨hs, _, hm⟩ := herr (PyExn.http 500 false "oops") (by rfl)
    exact ⟨e, he, hop, hs, hm⟩
  · obtain ⟨e, he, hop, hok, _⟩ := hper 2 { url := some "c" } (by rfl)
    obtain ⟨hs, hr, _⟩ := hok (emptyBodyDoc "GET") (by rfl)
    exact ⟨e, he, hop, hs, hr⟩

theorem mem_ite_pair {α : Type} (c : Prop) [Decidable c] (p x : α) (r : List α) :
    (x ∈ (if c then [p] else []) ++ r) ↔ ((c ∧ x = p) ∨ x ∈ r) := by
  split <;> rename_i h <;> simp [h]

theorem mem_ite_single {α : Type} (c : Prop) [Decidable c] (p x : α) :
    (x ∈ (if c then [p] else [])) ↔ (c ∧ x = p) := by
  split <;> rename_i h <;> simp [h]

theorem truthyStr_pair_iff (t : Option String) (key k v : String) :
    (optStrTruthy t = true ∧ (k, v) = (key, t.getD "")) ↔
    (k = key ∧ ∃ s, t = some s ∧ s ≠ "" ∧ v = s) := by
  cases t <;> simp [optStrTruthy, Prod.ext_iff] <;> tauto

theorem truthyInt_pair_iff (t : Option Int) (key k v : String) :
    (optIntTruthy t = true ∧ (k, v) = (key, toString (t.getD 0))) ↔
    (k = key ∧ ∃ n : Int, t = some n ∧ n ≠ 0 ∧ v = toString n) := by
  cases t <;> simp [optIntTruthy, Prod.ext_iff] <;> tauto

theorem countFlag_pair_iff (t : Option Bool) (k v : String) :
    (t = some true ∧ (k, v) = ("$count", "true")) ↔
    (k = "$count" ∧ t = some true ∧ v = "true") := by
  simp only [Prod.ext_iff]
  tauto

/-- Characterisation of the emitted parameter set: a pair `(k, v)` is
emitted exactly when `k` is one of the eight reserved names, the matching
`QueryArgs` field is present and truthy, and `v` is its coerced value. -/
theorem buildQueryParams_mem_iff (a : QueryArgs) (k v : String) :
    (k, v) ∈ buildQueryParams a ↔
      ((k = "$filter" ∧ ∃ s, a.filter = some s ∧ s ≠ "" ∧ v = s) ∨
       (k = "$select" ∧ ∃ s, a.select = some s ∧ s ≠ "" ∧ v = s) ∨
       (k = "$expand" ∧ ∃ s, a.expand = some s ∧ s ≠ "" ∧ v = s) ∨
       (k = "$orderby" ∧ ∃ s, a.orderby = some s ∧ s ≠ "" ∧ v = s) ∨
       (k = "$top" ∧ ∃ n : Int, a.top = some n ∧ n ≠ 0 ∧ v = toString n) ∨
       (k = "$skip" ∧ ∃ n : Int, a.skip = some n ∧ n ≠ 0 ∧ v = toString n) ∨
       (k = "$count" ∧ a.countFlag = some true ∧ v = "true") ∨
       (k = "$format" ∧ ∃ s, a.format = some s ∧ s ≠ "" ∧ v = s)) := by
  simp only [buildQueryParams, mem_ite_pair, mem_ite_single]
  exact or_congr (truthyStr_pair_iff a.filter "$filter" k v)
    (or_congr (truthyStr_pair_iff a.select "$select" k v)
    (or_congr (truthyStr_pair_iff a.expand "$expand" k v)
    (or_congr (truthyStr_pair_iff a.orderby "$orderby" k v)
    (or_congr (truthyInt_pair_iff a.top "$top" k v)
    (or_congr (truthyInt_pair_iff a.skip "$skip" k v)
    (or_congr (countFlag_pair_iff a.countFlag k v)
    (truthyStr_pair_iff a.format "$format" k v)))))))

/-- C2: the parameter set emitted by the query operation contains exactly
the protocol-reserved names for the set (present-and-truthy, see C9 for the
falsy refinement the source's `if args.get(...)` test implies) `QuerySpec`
fields, with `top`/`skip` coerced by `str(...)` and `count` emitted as the
literal `"true"`; absent fields never appear; and a spec with only `top=5`
emits exactly the one-element set `$top = "5"`. -/
theorem c2_query_param_set (a : QueryArgs) (k v : String) :
    ((k, v) ∈ buildQueryParams a ↔
      ((k = "$filter" ∧ ∃ s, a.filter = some s ∧ s ≠ "" ∧ v = s) ∨
       (k = "$select" ∧ ∃ s, a.select = some s ∧ s ≠ "" ∧ v = s) ∨
       (k = "$expand" ∧ ∃ s, a.expand = some s ∧ s ≠ "" ∧ v = s) ∨
       (k = "$orderby" ∧ ∃ s, a.orderby = some s ∧ s ≠ "" ∧ v = s) ∨
       (k = "$top" ∧ ∃ n : Int, a.top = some n ∧ n ≠ 0 ∧ v = toString n) ∨
       (k = "$skip" ∧ ∃ n : Int, a.skip = some n ∧ n ≠ 0 ∧ v = toString n) ∨
       (k = "$count" ∧ a.countFlag = some true ∧ v = "true") ∨
       (k = "$format" ∧ ∃ s, a.format = some s ∧ s ≠ "" ∧ v = s))) ∧
    buildQueryParams { entity_set := "Products", top := some 5 } = [("$top", "5")] := by
  exact ⟨buildQueryParams_mem_iff a k v, rfl⟩

/-- C9: a `QuerySpec` field that is present but falsy is treated as absent
by `sap_query_tool` — `top=0`, `skip=0`, `count=false` and empty-string
facet values each emit nothing — and every emitted `$top` parameter stems
from a nonzero integer, so `top=0` can never emit a `$top` parameter. -/
theorem c9_falsy_treated_as_absent (a : QueryArgs) :
    buildQueryParams { a with top := some 0 } = buildQueryParams { a with top := none } ∧
    buildQueryParams { a with skip := some 0 } = buildQueryParams { a with skip := none } ∧
    buildQueryParams { a with countFlag := some false } =
      buildQueryParams { a with countFlag := none } ∧
    buildQueryParams { a with filter := some "" } = buildQueryParams { a with filter := none } ∧
    buildQueryParams { a with select := some "" } = buildQueryParams { a with select := none } ∧
    buildQueryParams { a with expand := some "" } = buildQueryParams { a with expand := none } ∧
    buildQueryParams { a with orderby := some "" } =
      buildQueryParams { a with orderby := none } ∧
    buildQueryParams { a with format := some "" } = buildQueryParams { a with format := none } ∧
    (∀ v, ("$top", v) ∈ buildQueryParams a →
      ∃ n : Int, a.top = some n ∧ n ≠ 0 ∧ v = toString n) ∧
    (a.top = some 0 → ∀ v, ("$top", v) ∉ buildQueryParams a) := by
  have hcnt : buildQueryParams { a with countFlag := some false } =
      buildQueryParams { a with countFlag := none } := by
    simp [buildQueryParams]
  have htopOnly : ∀ v, ("$top", v) ∈ buildQueryParams a →
      ∃ n : Int, a.top = some n ∧ n ≠ 0 ∧ v = toString n := by
    intro v hv
    rcases (buildQueryParams_mem_iff a "$top" v).mp hv with
      h | h | h | h | h | h | h | h
    · exact absurd h.1 (by decide)
    · exact absurd h.1 (by decide)
    · exact absurd h.1 (by decide)
    · exact absurd h.1 (by decide)
    · exact h.2
    · exact absurd h.1 (by decide)
    · exact absurd h.1 (by decide)
    · exact absurd h.1 (by decide)
  refine ⟨rfl, rfl, hcnt, rfl, rfl, rfl, rfl, rfl, htopOnly, ?_⟩
  intro h0 v hv
  obtain ⟨n, hn, hne, _⟩ := htopOnly v hv
  rw [h0] at hn
  exact hne (Option.some.injEq .. ▸ hn).symm

/-- C9 witness: with `top=0` (and an active filter) the emitted set holds no
`$top` at all. -/
theorem c9_witness :
    ¬ (("$top", "0") ∈
        buildQueryParams { entity_set := "P", filter := some "A eq 1", top := some 0 }) := by
  exact (c9_falsy_treated_as_absent
    { entity_set := "P", filter := some "A eq 1", top := some 0 }).2.2.2.2.2.2.2.2.2 rfl "0"

/-- C6 counterexample: the claim says a service document matching none of
the three shapes yields an empty sequence, *not an error*, for ANY document.
For the JSON document `0` (a number, as `json.loads` can return), the very
first shape test `"d" in service_doc` raises a `TypeError`, so the
extraction raises instead of returning the empty sequence. -/
theorem c6_counterexample :
    discover_entity_sets_extract (Json.num 0) =
      .error (PyExn.typeError "argument of type is not iterable") ∧
    discover_entity_sets_extract (Json.num 0) ≠ .ok (Json.arr []) := by
  have he : discover_entity_sets_extract (Json.num 0) =
      .error (PyExn.typeError "argument of type is not iterable") := rfl
  refine ⟨he, ?_⟩
  rw [he]
  exact fun h => Except.noConfusion h

theorem exceptBindOk {ε α β : Type} (a : α) (f : α → Except ε β) :
    (Except.ok a : Except ε α) >>= f = f a := rfl

theorem pyInObj (k : String) (fs : List (String × Json)) :
    pyIn k (Json.obj fs) = .ok (lookupKey fs k).isSome := rfl

theorem pyIndexObj (k : String) (fs : List (String × Json)) (v : Json)
    (h : lookupKey fs k = some v) : pyIndex (Json.obj fs) k = .ok v := by
  simp [pyIndex, h]

/-- C6 (amended): for service documents that are JSON objects — the only
case in which the source's `in`-tests do not raise — the three shapes are
tried in order with the first match winning, an object matching none of
them yields the empty sequence and not an error, and the concrete document
`d.EntitySets = [Orders, Customers]` yields exactly `[Orders, Customers]`.
(The original claim over arbitrary documents is refuted by
`c6_counterexample`: a non-container document raises a `TypeError`.) -/
theorem c6_shape_extraction :
    (∀ fs : List (String × Json),
      (∀ dv, lookupKey fs "d" = some dv → pyIn "EntitySets" dv = .ok false) →
      lookupKey fs "value" = none → lookupKey fs "EntitySets" = none →
      discover_entity_sets_extract (Json.obj fs) = .ok (Json.arr [])) ∧
    (∀ (fs : List (String × Json)) (dv : Json),
      lookupKey fs "d" = some dv → pyIn "EntitySets" dv = .ok true →
      discover_entity_sets_extract (Json.obj fs) = pyIndex dv "EntitySets") ∧
    discover_entity_sets_extract
        (Json.obj [("d", Json.obj [("EntitySets",
          Json.arr [Json.str "Orders", Json.str "Customers"])])]) =
      .ok (Json.arr [Json.str "Orders", Json.str "Customers"]) ∧
    discover_entity_sets_extract
        (Json.obj [("d", Json.obj [("EntitySets", Json.arr [Json.str "A"])]),
                   ("value", Json.arr [Json.obj [("name", Json.str "B")]]),
                   ("EntitySets", Json.arr [Json.str "C"])]) =
      .ok (Json.arr [Json.str "A"]) ∧
    discover_entity_sets_extract
        (Json.obj [("value", Json.arr [Json.obj [("name", Json.str "B")],
                                       Json.obj [("x", Json.num 1)]]),
                   ("EntitySets", Json.arr [Json.str "C"])]) =
      .ok (Json.arr [Json.str "B"]) ∧
    discover_entity_sets_extract (Json.obj [("EntitySets", Json.arr [Json.str "C"])]) =
      .ok (Json.arr [Json.str "C"]) := by
  refine ⟨?_, ?_, rfl, rfl, rfl, rfl⟩
  · intro fs hd hv hf
    unfold discover_entity_sets_extract
    cases hld : lookupKey fs "d" with
    | none =>
      simp only [pyInObj, hld, hv, hf, Option.isSome_none, exceptBindOk]
      simp
    | some dv =>
      have hdd := hd dv hld
      simp only [pyInObj, pyIndexObj "d" fs dv hld, hld, hv, hf, hdd, Option.isSome_some,
        Option.isSome_none, exceptBindOk]
      simp
  · intro fs dv hld hE
    unfold discover_entity_sets_extract
    simp only [pyInObj, hld, pyIndexObj "d" fs dv hld, hE, Option.isSome_some, exceptBindOk]
    simp

/-- C6 witness: an object document with none of the three keys extracts to
the empty sequence, and one whose `d` value lacks `EntitySets` does too. -/
theorem c6_witness :
    discover_entity_sets_extract (Json.obj [("odata", Json.num 4)]) = .ok (Json.arr []) ∧
    discover_entity_sets_extract (Json.obj [("d", Json.obj [("results", Json.arr [])])]) =
      .ok (Json.arr []) := by
  constructor
  · exact c6_shape_extraction.1 [("odata", Json.num 4)]
      (fun dv h => Option.noConfusion h) rfl rfl
  · exact c6_shape_extraction.1 [("d", Json.obj [("results", Json.arr [])])]
      (fun dv h => by
        rw [show dv = Json.obj [("results", Json.arr [])] from (Option.some.injEq .. ▸ h).symm]
        rfl) rfl rfl

theorem serviceDocKey_cache_irrel (st : ClientState) (c : List (String × Json))
    (service : Option String) :
    serviceDocKey { st with service_doc_cache := c } service = serviceDocKey st service := rfl

/-- C8 (amended): for `get_service_document` the invariant holds
unconditionally: a populated cache entry is returned with zero network
requests, and a miss that returns populates the entry so that the next call
is a zero-request hit.  For `get_metadata`, "populated" must be read through
the source's truthiness test `if not self._metadata_cache`: a truthy cached
document is returned with zero requests, and a call that returns a truthy
document (direct or via the service-document fallback) leaves the cache
holding it, so the next call is a zero-request hit.  (The unqualified claim
fails when the fetched metadata document is empty — `c8_counterexample`.) -/
theorem c8_cache_invariant :
    (∀ (w : World) (st : ClientState) (service : Option String) (doc : Json),
      lookupKey st.service_doc_cache (serviceDocKey st service) = some doc →
      get_service_document w st service = (.ok doc, st, 0)) ∧
    (∀ (w : World) (st : ClientState) (service : Option String) (doc : Json)
       (st' : ClientState) (n : Nat),
      lookupKey st.service_doc_cache (serviceDocKey st service) = none →
      get_service_document w st service = (.ok doc, st', n) →
      n = 1 ∧ lookupKey st'.service_doc_cache (serviceDocKey st' service) = some doc ∧
        get_service_document w st' service = (.ok doc, st', 0)) ∧
    (∀ (w : World) (st : ClientState),
      jsonTruthy st.metadata_cache = true →
      get_metadata w st false = (.ok st.metadata_cache, st, 0)) ∧
    (∀ (w : World) (st : ClientState) (m : Json) (st' : ClientState) (n : Nat),
      get_metadata w st false = (.ok m, st', n) → jsonTruthy m = true →
      st'.metadata_cache = m ∧ get_metadata w st' false = (.ok m, st', 0)) := by
  refine ⟨fun w st service doc h => gsd_eq_hit w st service doc h,
    fun w st service doc st' n hl hg => ?_, fun w st hm => ?_,
    fun w st m st' n hg hm => ?_⟩
  · rcases hmk : _make_request w st.current_service "" [] "GET" none service with e | doc2
    · rw [gsd_eq_miss_err w st service e hl hmk] at hg
      simp at hg
    · rw [gsd_eq_miss_ok w st service doc2 hl hmk] at hg
      simp only [Prod.mk.injEq] at hg
      obtain ⟨hdoc, hst, hn⟩ := hg
      have hdoc' : doc2 = doc := by
        cases hdoc
        rfl
      subst hdoc'
      subst hst
      refine ⟨hn.symm, ?_, ?_⟩
      · simp [serviceDocKey_cache_irrel, lookupKey]
      · apply gsd_eq_hit
        simp [serviceDocKey_cache_irrel, lookupKey]
  · unfold get_metadata
    simp [hm]
  · unfold get_metadata at hg
    by_cases hc : jsonTruthy st.metadata_cache = true
    · simp [hc] at hg
      obtain ⟨h1, h2, _⟩ := hg
      subst h2
      refine ⟨h1, ?_⟩
      unfold get_metadata
      simp [h1, hm]
    · simp only [Bool.not_eq_true] at hc
      simp only [hc, Bool.not_false, Bool.true_or, if_true] at hg
      rcases hmk : _make_request w st.current_service "$metadata" [("$format", "json")]
          "GET" none none with e | mm
      · rw [hmk] at hg
        rcases hgs : get_service_document w st none with ⟨r, stX, nX⟩
        rcases r with e2 | d
        · rw [hgs] at hg
          simp at hg
        · rw [hgs] at hg
          simp only [Prod.mk.injEq] at hg
          obtain ⟨hd, hst, _⟩ := hg
          have hd' : d = m := by
            cases hd
            rfl
          subst hd'
          subst hst
          refine ⟨rfl, ?_⟩
          unfold get_metadata
          simp [hm]
      · rw [hmk] at hg
        simp only [Prod.mk.injEq] at hg
        obtain ⟨hd, hst, _⟩ := hg
        have hd' : mm = m := by
          cases hd
          rfl
        subst hd'
        subst hst
        refine ⟨rfl, ?_⟩
        unfold get_metadata
        simp [hm]

/-- C8 counterexample: a fresh session whose `$metadata` endpoint answers
with the empty JSON object.  The first call misses, returns the empty
document and assigns it — but the assigned entry is the falsy `{}`, so the
second call misses again and issues another network request (count 1, not
0): the miss did NOT populate the entry in the sense the claim requires. -/
theorem c8_counterexample :
    (get_metadata wEmptyMeta stFresh false).1 = .ok (Json.obj []) ∧
    (get_metadata wEmptyMeta stFresh false).2.1.metadata_cache = Json.obj [] ∧
    (get_metadata wEmptyMeta ((get_metadata wEmptyMeta stFresh false).2.1) false).2.2 = 1 ∧
    (1 : Nat) ≠ 0 := by
  exact ⟨rfl, rfl, rfl, by decide⟩

/-- C8 witness: a truthy cached metadata document is served with zero
requests, and a parseable `$metadata` response populates the cache so the
follow-up call is a zero-request hit; a cached service document is likewise
served with zero requests. -/
theorem c8_witness :
    get_metadata wDead stMeta false = (.ok (Json.arr [Json.num 1]), stMeta, 0) ∧
    (({ stFresh with metadata_cache := Json.arr [Json.num 1] } : ClientState).metadata_cache
        = Json.arr [Json.num 1] ∧
      get_metadata wGoodMeta { stFresh with metadata_cache := Json.arr [Json.num 1] } false =
        (.ok (Json.arr [Json.num 1]),
         { stFresh with metadata_cache := Json.arr [Json.num 1] }, 0)) ∧
    get_service_document wDead stNoCurrent (some "S1") = (.ok demoDoc, stNoCurrent, 0) := by
  refine ⟨?_, ?_, ?_⟩
  · exact c8_cache_invariant.2.2.1 wDead stMeta rfl
  · exact c8_cache_invariant.2.2.2 wGoodMeta stFresh (Json.arr [Json.num 1])
      { stFresh with metadata_cache := Json.arr [Json.num 1] } 1 rfl rfl
  · exact c8_cache_invariant.1 wDead stNoCurrent (some "S1") demoDoc rfl

theorem exceptBindErr {ε α β : Type} (e : ε) (f : α → Except ε β) :
    (Except.error e : Except ε α) >>= f = .error e := rfl

theorem fallbackDescriptor_name (name : String) : (fallbackDescriptor name).name = name := rfl

/-- C5: when the catalog probe fails, `discover_all_services` falls back to
probing the fixed candidate list one by one; the result is exactly the
sub-list of candidates whose zero-param probe succeeded (`fallbackList`),
each synthesized with version `"1"` and a description derived by stripping
the `API_` / `_SRV` tokens; failed candidates are silently skipped (they
simply do not appear).  On either path — catalog or fallback — the result
wholesale replaces the session's cached service list. -/
theorem c5_fallback_candidates (w : World) (st : ClientState) :
    ((_make_request w st.current_service catalogEndpoint [] "GET" none none).isOk = false →
      (discover_all_services w st).1 = fallbackList w st ∧
      (∀ d ∈ (discover_all_services w st).1,
        d.version = "1" ∧
        d.description = "SAP " ++ pyReplace (pyReplace d.name "API_" "") "_SRV" "" ++ " Service" ∧
        d.name ∈ common_services ∧
        (_make_request w st.current_service "" [] "GET" none (some d.name)).isOk = true) ∧
      (discover_all_services w st).2 =
        { st with available_services := (discover_all_services w st).1 }) ∧
    (∀ (w' : World) (st' : ClientState),
      (discover_all_services w' st').2.available_services = (discover_all_services w' st').1) := by
  constructor
  · intro hcat
    rcases hc : _make_request w st.current_service catalogEndpoint [] "GET" none none
        with e | v
    · have hfall : discover_all_services w st =
          (fallbackList w st, { st with available_services := fallbackList w st }) := by
        unfold discover_all_services fallbackList
        simp only [hc, exceptBindErr]
      refine ⟨by rw [hfall], ?_, by rw [hfall]⟩
      intro d hd
      rw [hfall] at hd
      obtain ⟨name, hnm, hde⟩ := List.mem_map.mp hd
      obtain ⟨hincs, hpok⟩ := List.mem_filter.mp hnm
      subst hde
      exact ⟨rfl, rfl, hincs, hpok⟩
    · rw [hc] at hcat
      simp [Except.isOk, Except.toBool] at hcat
  · intro w' st'
    unfold discover_all_services
    rcases hatt : (_make_request w' st'.current_service catalogEndpoint [] "GET" none none
        >>= fun catalog_data => parseCatalog catalog_data) with e | s
    · simp only [hatt]
    · simp only [hatt]

/-- C5 witness: with the catalog endpoint down and exactly two candidates
answering the probe, the fallback yields exactly those two synthesized
descriptors and installs them as the session's service list. -/
theorem c5_witness :
    (discover_all_services wProbe stFresh).1 =
      [fallbackDescriptor "API_SALES_ORDER_SRV", fallbackDescriptor "API_MATERIAL_SRV"] ∧
    (discover_all_services wProbe stFresh).2 =
      { stFresh with available_services := (discover_all_services wProbe stFresh).1 } := by
  obtain ⟨h1, _, h3⟩ := (c5_fallback_candidates wProbe stFresh).1 (by rfl)
  constructor
  · rw [h1]
    rfl
  · exact h3

theorem des_current (w : World) (st : ClientState) (service : Option String) :
    (discover_entity_sets w st service).2.current_service = st.current_service := by
  unfold discover_entity_sets
  rcases hg : get_service_document w st service with ⟨r, st', n⟩
  have hcur := gsd_current w st service
  rw [hg] at hcur
  rcases r with e | doc <;> simpa using hcur

theorem des_cache_mono (w : World) (st : ClientState) (service : Option String)
    (k : String) (d : Json) (h : lookupKey st.service_doc_cache k = some d) :
    lookupKey (discover_entity_sets w st service).2.service_doc_cache k = some d := by
  unfold discover_entity_sets
  rcases hg : get_service_document w st service with ⟨r, st', n⟩
  have hm := gsd_cache_mono w st service k d h
  rw [hg] at hm
  rcases r with e | doc <;> simpa using hm

theorem das_shape (w : World) (st : ClientState) :
    ∃ l, (discover_all_services w st).2 = { st with available_services := l } := by
  rcases hatt : (_make_request w st.current_service catalogEndpoint [] "GET" none none
      >>= fun catalog_data => parseCatalog catalog_data) with e | s
  · refine ⟨fallbackList w st, ?_⟩
    unfold discover_all_services fallbackList
    simp only [hatt]
  · refine ⟨s, ?_⟩
    unfold discover_all_services
    simp only [hatt]

theorem das_current (w : World) (st : ClientState) :
    (discover_all_services w st).2.current_service = st.current_service := by
  obtain ⟨l, hl⟩ := das_shape w st
  rw [hl]

theorem das_cache (w : World) (st : ClientState) :
    (discover_all_services w st).2.service_doc_cache = st.service_doc_cache := by
  obtain ⟨l, hl⟩ := das_shape w st
  rw [hl]

theorem findLoop_current (w : World) (e : String) :
    ∀ (l : List ServiceDescriptor) (st : ClientState),
      (findLoop w e l st).2.current_service = st.current_service
  | [], st => rfl
  | d :: rest, st => by
    unfold findLoop
    rcases hd : discover_entity_sets w st (some d.name) with ⟨r, st'⟩
    have hcur := des_current w st (some d.name)
    rw [hd] at hcur
    dsimp only at hcur ⊢
    rcases r with e2 | entities
    · dsimp only
      rw [findLoop_current w e rest st']
      exact hcur
    · dsimp only
      rcases hin : pyIn e entities with e3 | b
      · dsimp only
        rw [findLoop_current w e rest st']
        exact hcur
      · cases b
        · dsimp only
          rw [findLoop_current w e rest st']
          exact hcur
        · exact hcur

theorem findLoop_cache_mono (w : World) (e : String) :
    ∀ (l : List ServiceDescriptor) (st : ClientState) (k : String) (doc : Json),
      lookupKey st.service_doc_cache k = some doc →
      lookupKey (findLoop w e l st).2.service_doc_cache k = some doc
  | [], st, k, doc, h => h
  | d :: rest, st, k, doc, h => by
    unfold findLoop
    rcases hd : discover_entity_sets w st (some d.name) with ⟨r, st'⟩
    have hmono := des_cache_mono w st (some d.name) k doc h
    rw [hd] at hmono
    dsimp only at hmono ⊢
    rcases r with e2 | entities
    · dsimp only
      exact findLoop_cache_mono w e rest st' k doc hmono
    · dsimp only
      rcases hin : pyIn e entities with e3 | b
      · dsimp only
        exact findLoop_cache_mono w e rest st' k doc hmono
      · cases b
        · dsimp only
          exact findLoop_cache_mono w e rest st' k doc hmono
        · exact hmono


theorem findFirstPhase_frame (w : World) (st : ClientState) (e : String) :
    (findFirstPhase w st e).2.current_service = st.current_service ∧
    (∀ k d, lookupKey st.service_doc_cache k = some d →
      lookupKey (findFirstPhase w st e).2.service_doc_cache k = some d) := by
  unfold findFirstPhase
  rcases hcs : st.current_service with _ | cs
  · exact ⟨hcs, fun k d h => h⟩
  · dsimp only
    by_cases hne : cs ≠ ""
    · rw [if_pos hne]
      rcases hd : discover_entity_sets w st (some cs) with ⟨r, st'⟩
      have hcur := des_current w st (some cs)
      rw [hd, hcs] at hcur
      dsimp only at hcur
      have hmono : ∀ k d, lookupKey st.service_doc_cache k = some d →
          lookupKey st'.service_doc_cache k = some d := by
        intro k d h
        have hdm := des_cache_mono w st (some cs) k d h
        rw [hd] at hdm
        exact hdm
      rcases r with e2 | entities
      · exact ⟨hcur, hmono⟩
      · dsimp only
        rcases hin : pyIn e entities with e3 | b
        · exact ⟨hcur, hmono⟩
        · cases b
          · exact ⟨hcur, hmono⟩
          · exact ⟨hcur, hmono⟩
    · rw [if_neg hne]
      exact ⟨hcs, fun k d h => h⟩

theorem findScanPhase_frame (w : World) (e : String) (st : ClientState) :
    (findScanPhase w e st).2.current_service = st.current_service ∧
    (∀ k d, lookupKey st.service_doc_cache k = some d →
      lookupKey (findScanPhase w e st).2.service_doc_cache k = some d) := by
  unfold findScanPhase
  by_cases hav : st.available_services.isEmpty
  · simp only [hav, if_true]
    constructor
    · rw [findLoop_current w e _ (discover_all_services w st).2, das_current]
    · intro k d h
      apply findLoop_cache_mono w e _ (discover_all_services w st).2 k d
      rw [das_cache]
      exact h
  · simp only [hav, if_false]
    exact ⟨findLoop_current w e _ st, fun k d h => findLoop_cache_mono w e _ st k d h⟩

theorem find_frame (w : World) (st : ClientState) (e : String) :
    (find_service_for_entity w st e).2.current_service = st.current_service ∧
    (∀ k d, lookupKey st.service_doc_cache k = some d →
      lookupKey (find_service_for_entity w st e).2.service_doc_cache k = some d) := by
  unfold find_service_for_entity
  obtain ⟨h1c, h1m⟩ := findFirstPhase_frame w st e
  rcases hf : findFirstPhase w st e with ⟨opt, stA⟩
  rw [hf] at h1c h1m
  dsimp only at h1c h1m
  rcases opt with _ | s
  · dsimp only
    obtain ⟨h2c, h2m⟩ := findScanPhase_frame w e stA
    exact ⟨h2c.trans h1c, fun k d h => h2m k d (h1m k d h)⟩
  · exact ⟨h1c, h1m⟩

theorem serviceDocKey_some (st : ClientState) (c : String) (hc : c ≠ "") :
    serviceDocKey st (some c) = c := by
  simp [serviceDocKey, pyOrStr, hc]

theorem switch_service_cached (w : World) (st : ClientState) (c : String) (d : Json)
    (hc : c ≠ "") (h : lookupKey st.service_doc_cache c = some d) :
    switch_service w st c = (true, { st with current_service := some c }) := by
  unfold switch_service
  rw [gsd_eq_hit w st (some c) d (by rw [serviceDocKey_some st c hc]; exact h)]

theorem switch_cache_mono (w : World) (st : ClientState) (nm : String)
    (k : String) (d : Json) (h : lookupKey st.service_doc_cache k = some d) :
    lookupKey (switch_service w st nm).2.service_doc_cache k = some d := by
  unfold switch_service
  rcases hg : get_service_document w st (some nm) with ⟨r, st', n⟩
  have hm := gsd_cache_mono w st (some nm) k d h
  rw [hg] at hm
  rcases r with e | doc
  · exact hm
  · exact hm

theorem optStrTruthy_some (c : String) (hc : c ≠ "") : optStrTruthy (some c) = true := by
  simp [optStrTruthy, hc]

/-- C1 (amended): `sap_smart_query_tool` restores the prior active service —
for every network, session and query, and for every outcome of the inner
query — PROVIDED a prior active service was set (non-`None`, non-empty) and
its restoring probe succeeds (here: its service document is cached; the
probe consults the cache first).  Without a prior active service the
`finally` block's `if current_service:` skips the restore and the session
stays on the discovered service (`c1_counterexample`). -/
theorem c1_smart_query_restores (w : World) (st : ClientState) (args : QueryArgs)
    (c : String) (d : Json)
    (hcur : st.current_service = some c) (hc : c ≠ "")
    (hcache : lookupKey st.service_doc_cache c = some d) :
    (sap_smart_query_tool w st args).2.current_service = st.current_service := by
  unfold sap_smart_query_tool
  rcases hf1 : find_service_for_entity w st args.entity_set with ⟨opt1, st1⟩
  obtain ⟨h1c, h1m⟩ := find_frame w st args.entity_set
  rw [hf1] at h1c h1m
  dsimp only at h1c h1m
  have h1cache := h1m c d hcache
  have h1cur : st1.current_service = some c := h1c.trans hcur
  rcases opt1 with _ | s
  · dsimp only
    rcases hdas : discover_all_services w st1 with ⟨ds, st1b⟩
    have hbc : st1b.current_service = some c := by
      have hx := das_current w st1
      rw [hdas] at hx
      exact hx.trans h1cur
    have hbm : lookupKey st1b.service_doc_cache c = some d := by
      have hx := das_cache w st1
      rw [hdas] at hx
      dsimp only at hx
      rw [hx]
      exact h1cache
    dsimp only
    rcases hf2 : find_service_for_entity w st1b args.entity_set with ⟨opt2, st2⟩
    obtain ⟨h2c, h2m⟩ := find_frame w st1b args.entity_set
    rw [hf2] at h2c h2m
    dsimp only at h2c h2m
    have h2cur : st2.current_service = some c := h2c.trans hbc
    have h2cache := h2m c d hbm
    rcases opt2 with _ | opt
    · exact h2cur.trans hcur.symm
    · have h3cache := switch_cache_mono w st2 opt c d h2cache
      dsimp only
      rw [h2cur]
      rw [if_pos (optStrTruthy_some c hc)]
      simp only [Option.getD_some]
      rw [switch_service_cached w (switch_service w st2 opt).2 c d hc h3cache]
      rw [hcur]
  · have h3cache := switch_cache_mono w st1 s c d h1cache
    dsimp only
    rw [h1cur]
    rw [if_pos (optStrTruthy_some c hc)]
    simp only [Option.getD_some]
    rw [switch_service_cached w (switch_service w st1 s).2 c d hc h3cache]
    rw [hcur]

/-- C1 counterexample: the claim as stated — the active-service field is
always restored whenever an owning service is found, for every session
state — is false.  In a session with NO active service (`current_service =
None`) whose cache and service list already resolve the entity `Orders` to
service `S1`, the smart query switches to `S1` and the `finally` block's
`if current_service:` test skips the restore, leaving the session on `S1`:
post-state ≠ pre-state for the active-service field. -/
theorem c1_counterexample :
    stNoCurrent.current_service = none ∧
    (sap_smart_query_tool wDead stNoCurrent { entity_set := "Orders" }).2.current_service =
      some "S1" ∧
    (sap_smart_query_tool wDead stNoCurrent { entity_set := "Orders" }).2.current_service ≠
      stNoCurrent.current_service := by
  refine ⟨rfl, rfl, ?_⟩
  intro hh
  rw [show (sap_smart_query_tool wDead stNoCurrent
      { entity_set := "Orders" }).2.current_service = some "S1" from rfl] at hh
  exact Option.noConfusion hh

/-- C1 witness: with a prior active service `S0` (cached), the smart query
for `Orders` — which switches to `S1` and whose inner query fails on the
dead network — restores `S0`. -/
theorem c1_witness :
    (sap_smart_query_tool wDead stPrior { entity_set := "Orders" }).2.current_service =
      stPrior.current_service :=
  c1_smart_query_restores wDead stPrior { entity_set := "Orders" } "S0"
    (Json.obj [("x", Json.num 1)]) rfl (by decide) rfl

theorem splitOnAux_no_occ (sep : List Char) :
    ∀ (xs acc : List Char), (∀ i, sep.isPrefixOf (xs.drop i) = false) →
      splitOnAux sep xs acc = [acc.reverse ++ xs]
  | [], acc, h => by simp [splitOnAux]
  | c :: rest, acc, h => by
    have h0 := h 0
    simp only [List.drop_zero] at h0
    rw [splitOnAux]
    rw [if_neg (by simp [h0])]
    rw [splitOnAux_no_occ sep rest (c :: acc) (fun i => by
      have hi := h (i + 1)
      simpa using hi)]
    simp

theorem splitOnAux_boundary (s0 : Char) (stail : List Char) :
    ∀ (pre post acc : List Char),
      (∀ i < pre.length,
        (s0 :: stail).isPrefixOf (((pre ++ (s0 :: stail)) ++ post).drop i) = false) →
      splitOnAux (s0 :: stail) ((pre ++ (s0 :: stail)) ++ post) acc =
        (acc.reverse ++ pre) :: splitOnAux (s0 :: stail) post []
  | [], post, acc, h => by
    simp only [List.nil_append, List.cons_append]
    rw [splitOnAux]
    rw [if_pos (by
      rw [← List.cons_append, List.isPrefixOf_iff_prefix]
      exact List.prefix_append (s0 :: stail) post)]
    have hdrop : List.drop ((s0 :: stail).length - 1) (stail ++ post) = post := by
      simp only [List.length_cons, Nat.add_sub_cancel]
      exact List.drop_left stail post
    rw [hdrop]
    simp
  | p :: pre', post, acc, h => by
    have h0 := h 0 (by simp)
    simp only [List.drop_zero, List.cons_append] at h0
    simp only [List.cons_append]
    rw [splitOnAux]
    rw [if_neg (by simp only [h0]; exact Bool.false_ne_true)]
    have hrec := splitOnAux_boundary s0 stail pre' post (p :: acc) (fun i hi => by
      have hj := h (i + 1) (by simpa using Nat.succ_lt_succ hi)
      simpa using hj)
    simp only [List.cons_append] at hrec
    rw [hrec]
    simp

theorem splitOnL_boundary (s0 : Char) (stail pre post : List Char)
    (hpre : ∀ i < pre.length,
      (s0 :: stail).isPrefixOf (((pre ++ (s0 :: stail)) ++ post).drop i) = false)
    (hpost : ∀ i, (s0 :: stail).isPrefixOf (post.drop i) = false) :
    splitOnL (s0 :: stail) ((pre ++ (s0 :: stail)) ++ post) = [pre, post] := by
  unfold splitOnL
  rw [splitOnAux_boundary s0 stail pre post [] hpre]
  rw [splitOnAux_no_occ (s0 :: stail) post [] hpost]
  simp

theorem prefix_beyond_length (s0 : Char) (stail post : List Char)
    (h : ∀ i ≤ post.length, (s0 :: stail).isPrefixOf (post.drop i) = false) :
    ∀ i, (s0 :: stail).isPrefixOf (post.drop i) = false := by
  intro i
  by_cases hi : i ≤ post.length
  · exact h i hi
  · rw [List.drop_eq_nil_of_le (by omega)]
    rfl

theorem findOcc_isSome (sep : List Char) :
    ∀ (xs : List Char) (i : Nat), sep.isPrefixOf (xs.drop i) = true →
      (findOcc sep xs).isSome = true
  | [], i, h => by
    cases sep with
    | nil => rfl
    | cons a as =>
      rw [List.drop_nil] at h
      exact absurd h (by simp [List.isPrefixOf])
  | c :: rest, 0, h => by
    rw [List.drop_zero] at h
    rw [findOcc, if_pos h]
    rfl
  | c :: rest, i + 1, h => by
    rw [List.drop_succ_cons] at h
    rw [findOcc]
    by_cases hp : sep.isPrefixOf (c :: rest) = true
    · rw [if_pos hp]
      rfl
    · rw [if_neg hp]
      have := findOcc_isSome sep rest i h
      simp [Option.isSome_map, this]

/-- C10: `SAPODataClient.__init__` on a URL of the form
`pre ++ "/sap/opu/odata/sap/" ++ post` (first marker occurrence after `pre`,
no occurrence inside `post`) with more than 5 slashes sets the base URL to
the prefix before the marker joined with `/sap/opu/odata/sap` and installs
the segment after the marker as the initial active service; every other URL
is trailing-slash-stripped with no active service. -/
theorem c10_init_url_split :
    (∀ pre post : List Char,
      (∀ i < pre.length,
        sapMarker.data.isPrefixOf (((pre ++ sapMarker.data) ++ post).drop i) = false) →
      (∀ i ≤ post.length, sapMarker.data.isPrefixOf (post.drop i) = false) →
      5 < countChar '/' ((pre ++ sapMarker.data) ++ post) →
      (SAPODataClient_init (String.mk ((pre ++ sapMarker.data) ++ post))).base_url =
        String.mk (pre ++ "/sap/opu/odata/sap".data) ∧
      (SAPODataClient_init (String.mk ((pre ++ sapMarker.data) ++ post))).current_service =
        some (String.mk post)) ∧
    (∀ s : String, ¬ (pyContainsSub sapMarker.data s.data = true ∧ 5 < countChar '/' s.data) →
      (SAPODataClient_init s).base_url = String.mk (rstripSlash s.data) ∧
      (SAPODataClient_init s).current_service = none) := by
  constructor
  · intro pre post hpre hpost hcount
    have hpost' : ∀ i, sapMarker.data.isPrefixOf (post.drop i) = false :=
      prefix_beyond_length '/' "sap/opu/odata/sap/".data post hpost
    have hsplit : splitOnL sapMarker.data ((pre ++ sapMarker.data) ++ post) = [pre, post] :=
      splitOnL_boundary '/' "sap/opu/odata/sap/".data pre post hpre hpost'
    have hcont : pyContainsSub sapMarker.data
        ((pre ++ sapMarker.data) ++ post) = true := by
      apply findOcc_isSome sapMarker.data _ pre.length
      rw [List.append_assoc, List.drop_left]
      rw [ List.isPrefixOf_iff_prefix]
      exact List.prefix_append sapMarker.data post
    unfold SAPODataClient_init
    rw [if_pos (⟨hcont, hcount⟩ :
      pyContainsSub sapMarker.data (String.mk ((pre ++ sapMarker.data) ++ post)).data = true ∧
      5 < countChar '/' (String.mk ((pre ++ sapMarker.data) ++ post)).data)]
    have hdata : (String.mk ((pre ++ sapMarker.data) ++ post)).data =
        (pre ++ sapMarker.data) ++ post := rfl
    constructor
    · show ((splitOnL sapMarker.data
          (String.mk ((pre ++ sapMarker.data) ++ post)).data).map String.mk).headD ""
          ++ "/sap/opu/odata/sap" = String.mk (pre ++ "/sap/opu/odata/sap".data)
      rw [hdata, hsplit]
      rfl
    · show (if 1 < ((splitOnL sapMarker.data
          (String.mk ((pre ++ sapMarker.data) ++ post)).data).map String.mk).length then
          some ((((splitOnL sapMarker.data
            (String.mk ((pre ++ sapMarker.data) ++ post)).data).map String.mk).drop 1).headD "")
        else none) = some (String.mk post)
      rw [hdata, hsplit]
      rfl
  · intro s hns
    unfold SAPODataClient_init
    rw [if_neg hns]
    exact ⟨rfl, rfl⟩

/-- C10 witness: a concrete service-specific URL is split into base and
initial active service, and a plain URL with a trailing slash is stripped
with no active service. -/
theorem c10_witness :
    (SAPODataClient_init "https://host:443/sap/opu/odata/sap/API_SALES_ORDER_SRV").base_url =
      "https://host:443/sap/opu/odata/sap" ∧
    (SAPODataClient_init
        "https://host:443/sap/opu/odata/sap/API_SALES_ORDER_SRV").current_service =
      some "API_SALES_ORDER_SRV" ∧
    (SAPODataClient_init "http://host/ODATA/").base_url = "http://host/ODATA" ∧
    (SAPODataClient_init "http://host/ODATA/").current_service = none := by
  have h := c10_init_url_split.1 "https://host:443".data "API_SALES_ORDER_SRV".data
    (by decide) (by decide) (by decide)
  have harg : String.mk (("https://host:443".data ++ sapMarker.data) ++
      "API_SALES_ORDER_SRV".data) =
      "https://host:443/sap/opu/odata/sap/API_SALES_ORDER_SRV" := by decide
  rw [harg] at h
  have h2 := c10_init_url_split.2 "http://host/ODATA/" (by decide)
  exact ⟨h.1.trans (by decide), h.2.trans (by decide), h2.1.trans (by decide), h2.2⟩
